import Mathlib

/-!
Verification development for the soil-liquefaction analysis engine.

The definitions below are shallow embeddings of the Python source:
  - `src/liquefaction_backup/services/NCEER.py` (the NCEER analysis class
    and its module-level helpers), and
  - `src/liquefaction/services/analysis_engine.py` (the
    `LiquefactionAnalysisEngine` class with its builtin fallback path), and
  - `src/liquefaction/services/seismic_service.py`
    (`SeismicParameterService.query_seismic_parameters`).

Python floats are modelled by `ℚ` where the executed code path only uses
field operations, `min`/`max` and comparisons, and by `ℝ` where the code
applies `sqrt`/`exp`/`**`.  Missing values (`None`/`NaN`/blank) are
modelled by `Option`.  `decimal.Decimal` rounding with `ROUND_HALF_UP`
(used by `format_result`) and Python `round` (banker's rounding) are
modelled exactly over `ℚ` (and over `ℝ` for the builtin engine path).
-/

/-- Decimal `ROUND_HALF_UP` to `d` decimal places (ties away from zero),
as used by `format_result` in NCEER.py. -/
def roundHalfUp (d : ℕ) (x : ℚ) : ℚ :=
  let m : ℚ := (10 : ℚ) ^ d
  let s : ℚ := x * m
  let r : ℤ := if 0 ≤ s then ⌊s + 1/2⌋ else -⌊-s + 1/2⌋
  (r : ℚ) / m

/-- Python `round(x, d)` (round half to even) over `ℚ`. -/
def pyRound (d : ℕ) (x : ℚ) : ℚ :=
  let m : ℚ := (10 : ℚ) ^ d
  let s : ℚ := x * m
  let n : ℤ := ⌊s⌋
  let frac : ℚ := s - n
  let r : ℤ :=
    if frac < 1/2 then n
    else if 1/2 < frac then n + 1
    else if n % 2 = 0 then n else n + 1
  (r : ℚ) / m

/-- Python `round(x, d)` (round half to even) over `ℝ`, for the builtin
engine path whose values are modelled in `ℝ`. -/
noncomputable def pyRoundR (d : ℕ) (x : ℝ) : ℝ :=
  let m : ℝ := (10 : ℝ) ^ d
  let s : ℝ := x * m
  let n : ℤ := ⌊s⌋
  let frac : ℝ := s - n
  let r : ℤ :=
    if frac < 1/2 then n
    else if 1/2 < frac then n + 1
    else if n % 2 = 0 then n else n + 1
  (r : ℝ) / m

/-- NCEER.py `format_result(value, decimal_places=3)` on a present
numeric value: quantize to 3 decimals with `ROUND_HALF_UP`. -/
def format_result (x : ℚ) : ℚ := roundHalfUp 3 x

/-- Helper bound for the rounding models: `ROUND_HALF_UP` never crosses a
bound that is itself a multiple of the quantum. -/
theorem roundHalfUp_le_of_le (d : ℕ) (x : ℚ) (k : ℤ) (h : x ≤ (k : ℚ) / (10 : ℚ) ^ d) :
    roundHalfUp d x ≤ (k : ℚ) / (10 : ℚ) ^ d := by
  have hm : (0 : ℚ) < (10 : ℚ) ^ d := by positivity
  have hs : x * (10 : ℚ) ^ d ≤ (k : ℚ) := by
    have h2 := mul_le_mul_of_nonneg_right h hm.le
    rwa [div_mul_cancel₀ _ (ne_of_gt hm)] at h2
  simp only [roundHalfUp]
  set s : ℚ := x * (10 : ℚ) ^ d with hsdef
  have key : (if 0 ≤ s then ⌊s + 1/2⌋ else -⌊-s + 1/2⌋) ≤ k := by
    by_cases h0 : 0 ≤ s
    · simp only [h0, if_true]
      have h1 : ⌊s + 1/2⌋ < k + 1 := by
        rw [Int.floor_lt]
        push_cast
        linarith
      omega
    · simp only [h0, if_false]
      have h2 : -k ≤ ⌊-s + 1/2⌋ := by
        rw [Int.le_floor]
        push_cast
        linarith
      omega
  rw [div_le_div_iff₀ hm hm]
  exact mul_le_mul_of_nonneg_right (Int.cast_le.mpr key) hm.le

theorem roundHalfUp_nonneg (d : ℕ) (x : ℚ) (h : 0 ≤ x) : 0 ≤ roundHalfUp d x := by
  unfold roundHalfUp
  have hm : (0 : ℚ) < (10 : ℚ) ^ d := by positivity
  have hs : 0 ≤ x * (10 : ℚ) ^ d := mul_nonneg h (le_of_lt hm)
  simp only [hs, if_true]
  apply div_nonneg _ (le_of_lt hm)
  have : (0 : ℤ) ≤ ⌊x * (10 : ℚ) ^ d + 1/2⌋ := Int.floor_nonneg.2 (by linarith)
  exact_mod_cast this

/-- Lower-bound counterpart for `ROUND_HALF_UP`. -/
theorem le_roundHalfUp_of_le (d : ℕ) (x : ℚ) (k : ℤ) (h : (k : ℚ) / (10 : ℚ) ^ d ≤ x) :
    (k : ℚ) / (10 : ℚ) ^ d ≤ roundHalfUp d x := by
  have hm : (0 : ℚ) < (10 : ℚ) ^ d := by positivity
  have hs : (k : ℚ) ≤ x * (10 : ℚ) ^ d := by
    have h2 := mul_le_mul_of_nonneg_right h hm.le
    rwa [div_mul_cancel₀ _ (ne_of_gt hm)] at h2
  simp only [roundHalfUp]
  set s : ℚ := x * (10 : ℚ) ^ d with hsdef
  have key : k ≤ (if 0 ≤ s then ⌊s + 1/2⌋ else -⌊-s + 1/2⌋) := by
    by_cases h0 : 0 ≤ s
    · simp only [h0, if_true]
      have : ⌊(k : ℚ)⌋ ≤ ⌊s + 1/2⌋ := Int.floor_le_floor (by linarith)
      simpa using this
    · simp only [h0, if_false]
      have h2 : ⌊-s + 1/2⌋ < -k + 1 := by
        rw [Int.floor_lt]
        push_cast
        linarith
      omega
  rw [div_le_div_iff₀ hm hm]
  exact mul_le_mul_of_nonneg_right (Int.cast_le.mpr key) hm.le

/-- Exact multiples of the quantum are fixed points of `ROUND_HALF_UP`. -/
theorem roundHalfUp_eq_self (d : ℕ) (k : ℤ) :
    roundHalfUp d ((k : ℚ) / (10 : ℚ) ^ d) = (k : ℚ) / (10 : ℚ) ^ d :=
  le_antisymm (roundHalfUp_le_of_le d _ k le_rfl) (le_roundHalfUp_of_le d _ k le_rfl)

/-- Evaluation rule for `ROUND_HALF_UP` on non-negative inputs. -/
theorem roundHalfUp_eval (d : ℕ) (x : ℚ) (k : ℤ) (h0 : 0 ≤ x)
    (h1 : (k : ℚ) ≤ x * (10 : ℚ) ^ d + 1/2) (h2 : x * (10 : ℚ) ^ d + 1/2 < (k : ℚ) + 1) :
    roundHalfUp d x = (k : ℚ) / (10 : ℚ) ^ d := by
  simp only [roundHalfUp]
  have hs : 0 ≤ x * (10 : ℚ) ^ d := mul_nonneg h0 (by positivity)
  simp only [hs, if_true]
  congr 1
  have hfl : ⌊x * (10 : ℚ) ^ d + 1/2⌋ = k := by
    rw [Int.floor_eq_iff]
    exact ⟨h1, by exact_mod_cast h2⟩
  exact_mod_cast hfl

/-- Python banker's rounding never crosses an upper bound that is a
multiple of the quantum. -/
theorem pyRound_le_of_le (d : ℕ) (x : ℚ) (k : ℤ) (h : x ≤ (k : ℚ) / (10 : ℚ) ^ d) :
    pyRound d x ≤ (k : ℚ) / (10 : ℚ) ^ d := by
  have hm : (0 : ℚ) < (10 : ℚ) ^ d := by positivity
  have hs : x * (10 : ℚ) ^ d ≤ (k : ℚ) := by
    have h2 := mul_le_mul_of_nonneg_right h hm.le
    rwa [div_mul_cancel₀ _ (ne_of_gt hm)] at h2
  simp only [pyRound]
  set s : ℚ := x * (10 : ℚ) ^ d with hsdef
  set n : ℤ := ⌊s⌋ with hndef
  have hns : (n : ℚ) ≤ s := Int.floor_le s
  have hnk : n ≤ k := by
    have : n ≤ ⌊(k : ℚ)⌋ := Int.floor_le_floor hs
    simpa using this
  have key : (if s - n < 1/2 then n else if 1/2 < s - n then n + 1
      else if n % 2 = 0 then n else n + 1) ≤ k := by
    by_cases h1 : s - (n : ℚ) < 1/2
    · simp only [h1, if_true]; exact hnk
    · push_neg at h1
      have hlt : n < k := by
        have hh : (n : ℚ) + 1/2 ≤ (k : ℚ) := by linarith
        by_contra hcon
        push_neg at hcon
        have : (k : ℚ) ≤ (n : ℚ) := by exact_mod_cast hcon
        linarith
      have h2 : n + 1 ≤ k := hlt
      simp only [not_lt.2 h1, if_false]
      split
      · exact h2
      · split <;> omega
  rw [div_le_div_iff₀ hm hm]
  exact mul_le_mul_of_nonneg_right (Int.cast_le.mpr key) hm.le

/-- Python banker's rounding never crosses a lower bound that is a
multiple of the quantum. -/
theorem le_pyRound_of_le (d : ℕ) (x : ℚ) (k : ℤ) (h : (k : ℚ) / (10 : ℚ) ^ d ≤ x) :
    (k : ℚ) / (10 : ℚ) ^ d ≤ pyRound d x := by
  have hm : (0 : ℚ) < (10 : ℚ) ^ d := by positivity
  have hs : (k : ℚ) ≤ x * (10 : ℚ) ^ d := by
    have h2 := mul_le_mul_of_nonneg_right h hm.le
    rwa [div_mul_cancel₀ _ (ne_of_gt hm)] at h2
  simp only [pyRound]
  set s : ℚ := x * (10 : ℚ) ^ d with hsdef
  set n : ℤ := ⌊s⌋ with hndef
  have hkn : k ≤ n := by
    have : ⌊(k : ℚ)⌋ ≤ n := Int.floor_le_floor hs
    simpa using this
  have key : k ≤ (if s - n < 1/2 then n else if 1/2 < s - n then n + 1
      else if n % 2 = 0 then n else n + 1) := by
    split
    · exact hkn
    · split
      · omega
      · split <;> omega
  rw [div_le_div_iff₀ hm hm]
  exact mul_le_mul_of_nonneg_right (Int.cast_le.mpr key) hm.le

/-- The real-valued banker's rounding is off by less than one quantum. -/
theorem pyRoundR_gt (d : ℕ) (x : ℝ) : x - 1 / (10 : ℝ) ^ d < pyRoundR d x := by
  have hm : (0 : ℝ) < (10 : ℝ) ^ d := by positivity
  have h1 : x * (10 : ℝ) ^ d - 1 < (⌊x * (10 : ℝ) ^ d⌋ : ℝ) := Int.sub_one_lt_floor _
  simp only [pyRoundR]
  split_ifs <;>
  · rw [sub_lt_iff_lt_add, div_add_div_same, lt_div_iff₀ hm]
    push_cast
    linarith

/-!
## NCEER.py module-level helpers
-/

/-- NCEER.py `earthquake_mw_adjustments` dictionary lookup with the
`dict.get(scenario, 0.0)` default used by `get_scenario_mw`. -/
def earthquake_mw_adjustments (scen : String) : ℚ :=
  if scen = "Design" then 0
  else if scen = "MidEq" then -(1/5)
  else if scen = "MaxEq" then 1/5
  else 0

/-- NCEER.py `get_scenario_mw(base_mw, scenario)`: add the scenario
adjustment, clamp to `[5.0, 8.5]`, then `round(·, 1)`. -/
def get_scenario_mw (base_mw : ℚ) (scen : String) : ℚ :=
  let adjusted := base_mw + earthquake_mw_adjustments scen
  let adjusted := max 5 (min (17/2) adjusted)
  pyRound 1 adjusted

/-!
## NCEER.compute_coefficient (NCEER.py lines 1082-1373)

One borehole's rows, already sorted by top depth (the source sorts with
`group.sort_values` on the top-depth column before everything else; the
embedding receives the sorted list).  Depth columns are modelled as
present (`ℚ`); the unit-weight column is `Option ℚ` because the source
explicitly handles its missing values.
-/

/-- One raw soil-layer row of a borehole group: top depth, bottom depth
(`上限深度`/`下限深度`), and the merged `Density` column. -/
structure RawLayer where
  top : ℚ
  bottom : ℚ
  densityOpt : Option ℚ

/-- NCEER.py lines 1115-1126: a missing/blank `Density` is set to `0.0`
directly, never forward-filled from the previous layer. -/
def resolveDensity (l : RawLayer) : ℚ := l.densityOpt.getD 0

/-- NCEER.py lines 1131-1158 (`土層深度`): each layer's dirt depth is the
midpoint of its bottom depth and the next layer's top depth; the last
layer uses its own bottom depth. -/
def dirtDepths : List RawLayer → List ℚ
  | [] => []
  | [l] => [l.bottom]
  | l :: next :: rest => (l.bottom + next.top) / 2 :: dirtDepths (next :: rest)

/-- NCEER.py lines 1152-1162: layers whose dirt depth exceeds 30 m are
dropped (not clamped); the surviving rows keep their computed dirt depth
paired with their resolved unit weight. -/
def keptPairs (ls : List RawLayer) : List (ℚ × ℚ) :=
  ((dirtDepths ls).zip (ls.map resolveDensity)).filter (fun p => p.1 ≤ 30)

/-- NCEER.py lines 1167-1195 and 1223-1235: layer thickness (first layer:
its dirt depth; later layers: difference of consecutive dirt depths) and
the analysis-point depth (`分析點深度`): below the water table the point
is pulled up by `min((dd-GWT)/2, thickness/2)`, otherwise the midpoint
`dd - thickness/2` is used. -/
def analysisDepth (prevDepth : Option ℚ) (gwt dd : ℚ) : ℚ :=
  let th := match prevDepth with
    | none => dd
    | some p => dd - p
  if gwt < dd then dd - min ((dd - gwt) / 2) (th / 2)
  else dd - th / 2

/-- One processed row of `compute_coefficient`: dirt depth, analysis
depth, resolved unit weight and cumulative total stress `累計sigmav`. -/
structure StressRow where
  dd : ℚ
  ad : ℚ
  uw : ℚ
  cum : ℚ

/-- NCEER.py lines 1269-1321: the strictly sequential cumulative-stress
recurrence.  First layer: `sigma_v = ad₀ × uw₀`; layer `i>0`:
`sigma_v = (dd[i-1] - ad[i-1])·uw[i-1] + (ad[i] - dd[i-1])·uw[i] + cum[i-1]`. -/
def stressRows (gwt : ℚ) : Option StressRow → List (ℚ × ℚ) → List StressRow
  | _, [] => []
  | none, (dd, uw) :: rest =>
      let ad := analysisDepth none gwt dd
      let row : StressRow := ⟨dd, ad, uw, ad * uw⟩
      row :: stressRows gwt (some row) rest
  | some prev, (dd, uw) :: rest =>
      let ad := analysisDepth (some prev.dd) gwt dd
      let cum := (prev.dd - prev.ad) * prev.uw + (ad - prev.dd) * uw + prev.cum
      let row : StressRow := ⟨dd, ad, uw, cum⟩
      row :: stressRows gwt (some row) rest

/-- The full `compute_coefficient` chain on a sorted borehole group. -/
def compute_coefficient_rows (gwt : ℚ) (ls : List RawLayer) : List StressRow :=
  stressRows gwt none (keptPairs ls)

/-- The `累計sigmav` column produced by `compute_coefficient`. -/
def cumulative_sigmav (gwt : ℚ) (ls : List RawLayer) : List ℚ :=
  (compute_coefficient_rows gwt ls).map StressRow.cum

/-- NCEER.py lines 1349-1371: effective stress for CRR: cumulative stress
minus the buoyant reduction `max(0, ad - GWT)` below the water table. -/
def sigma_v_CRR_of (gwt : ℚ) (r : StressRow) : ℚ :=
  if r.ad ≤ gwt then r.cum else r.cum - max 0 (r.ad - gwt)

theorem dirtDepths_length (ls : List RawLayer) : (dirtDepths ls).length = ls.length := by
  induction ls with
  | nil => simp [dirtDepths]
  | cons l rest ih =>
    cases rest with
    | nil => simp [dirtDepths]
    | cons next rest2 => simpa [dirtDepths] using ih

theorem dirtDepths_nonneg (ls : List RawLayer)
    (h : ∀ l ∈ ls, 0 ≤ l.top ∧ l.top ≤ l.bottom) :
    ∀ d ∈ dirtDepths ls, 0 ≤ d := by
  induction ls with
  | nil => simp [dirtDepths]
  | cons l rest ih =>
    cases rest with
    | nil =>
      simp only [dirtDepths, List.mem_singleton]
      rintro d rfl
      have h1 := h l (by simp)
      linarith [h1.1, h1.2]
    | cons next rest2 =>
      simp only [dirtDepths, List.mem_cons]
      rintro d (rfl | hd)
      · have h1 := h l (by simp)
        have h2 := h next (by simp)
        linarith [h1.1, h1.2, h2.1]
      · exact ih (fun x hx => h x (List.mem_cons_of_mem _ hx)) d hd

theorem dirtDepths_chain (ls : List RawLayer)
    (hc : List.Chain' (fun a b => a.bottom ≤ b.top) ls)
    (ht : ∀ l ∈ ls, l.top ≤ l.bottom) :
    List.Chain' (· ≤ ·) (dirtDepths ls) := by
  induction ls with
  | nil => simp [dirtDepths]
  | cons l rest ih =>
    cases rest with
    | nil => simp [dirtDepths]
    | cons next rest2 =>
      rw [List.chain'_cons] at hc
      have hrec := ih hc.2 (fun x hx => ht x (List.mem_cons_of_mem _ hx))
      cases rest2 with
      | nil =>
        simp only [dirtDepths] at hrec ⊢
        refine List.chain'_cons.2 ⟨?_, hrec⟩
        have h2 := ht next (by simp)
        linarith [hc.1]
      | cons r rs =>
        simp only [dirtDepths] at hrec ⊢
        refine List.chain'_cons.2 ⟨?_, hrec⟩
        have h2 := ht next (by simp)
        have h3 : next.bottom ≤ r.top := (List.chain'_cons.1 hc.2).1
        linarith [hc.1]

theorem keptPairs_chain (ls : List RawLayer)
    (hc : List.Chain' (fun a b => a.bottom ≤ b.top) ls)
    (ht : ∀ l ∈ ls, l.top ≤ l.bottom) :
    List.Chain' (fun a b : ℚ × ℚ => a.1 ≤ b.1) (keptPairs ls) := by
  haveI : IsTrans (ℚ × ℚ) (fun a b : ℚ × ℚ => a.1 ≤ b.1) :=
    ⟨fun _ _ _ h1 h2 => le_trans h1 h2⟩
  have h1 : List.Chain' (· ≤ ·) (dirtDepths ls) := dirtDepths_chain ls hc ht
  have hzip : List.Chain' (fun a b : ℚ × ℚ => a.1 ≤ b.1)
      ((dirtDepths ls).zip (ls.map resolveDensity)) := by
    have hmap : ((dirtDepths ls).zip (ls.map resolveDensity)).map Prod.fst = dirtDepths ls :=
      List.map_fst_zip _ _ (by simp [dirtDepths_length ls])
    have hch : List.Chain' (· ≤ ·)
        (((dirtDepths ls).zip (ls.map resolveDensity)).map Prod.fst) := by
      rw [hmap]; exact h1
    exact (List.chain'_map Prod.fst).1 hch
  exact hzip.sublist (List.filter_sublist _)

theorem keptPairs_mem (ls : List RawLayer) (p : ℚ × ℚ)
    (hp : p ∈ keptPairs ls)
    (hgeom : ∀ l ∈ ls, 0 ≤ l.top ∧ l.top ≤ l.bottom)
    (hdens : ∀ l ∈ ls, ∀ d, l.densityOpt = some d → 0 ≤ d) :
    0 ≤ p.1 ∧ 0 ≤ p.2 := by
  have hz : p ∈ (dirtDepths ls).zip (ls.map resolveDensity) :=
    List.mem_of_mem_filter hp
  have h1 : p.1 ∈ dirtDepths ls := by
    have := List.of_mem_zip hz
    exact this.1
  have h2 : p.2 ∈ ls.map resolveDensity := by
    have := List.of_mem_zip hz
    exact this.2
  refine ⟨dirtDepths_nonneg ls hgeom p.1 h1, ?_⟩
  rcases List.mem_map.1 h2 with ⟨l, hl, hld⟩
  rw [← hld]
  unfold resolveDensity
  cases hopt : l.densityOpt with
  | none => simp
  | some d => simpa using hdens l hl d hopt

theorem analysisDepth_le (gwt dd : ℚ) (prev : ℚ) (hp : prev ≤ dd) :
    prev ≤ analysisDepth (some prev) gwt dd ∧ analysisDepth (some prev) gwt dd ≤ dd := by
  unfold analysisDepth
  by_cases hg : gwt < dd
  · simp only [hg, if_true]
    constructor
    · have h1 : min ((dd - gwt) / 2) ((dd - prev) / 2) ≤ (dd - prev) / 2 := min_le_right _ _
      linarith
    · have h2 : (0 : ℚ) ≤ min ((dd - gwt) / 2) ((dd - prev) / 2) :=
        le_min (by linarith) (by linarith)
      linarith
  · simp only [hg, if_false]
    constructor <;> linarith

theorem analysisDepth_first_le (gwt dd : ℚ) (hd : 0 ≤ dd) :
    analysisDepth none gwt dd ≤ dd := by
  unfold analysisDepth
  by_cases hg : gwt < dd
  · simp only [hg, if_true]
    have h2 : (0 : ℚ) ≤ min ((dd - gwt) / 2) (dd / 2) := le_min (by linarith) (by linarith)
    linarith
  · simp only [hg, if_false]
    linarith

theorem stressRows_chain (gwt : ℚ) (l : List (ℚ × ℚ)) :
    ∀ (prev : StressRow),
    prev.ad ≤ prev.dd → 0 ≤ prev.uw →
    List.Chain' (fun a b : ℚ × ℚ => a.1 ≤ b.1) l →
    (∀ x ∈ l.head?, prev.dd ≤ x.1) →
    (∀ p ∈ l, 0 ≤ p.2) →
    List.Chain' (· ≤ ·) (prev.cum :: (stressRows gwt (some prev) l).map StressRow.cum) := by
  induction l with
  | nil => intro prev _ _ _ _ _; simp [stressRows]
  | cons p rest ih =>
    intro prev had huw hchain hhead hnn
    obtain ⟨dd, uw⟩ := p
    have hpd : prev.dd ≤ dd := by
      have := hhead (dd, uw) (by simp)
      simpa using this
    have hb := analysisDepth_le gwt dd prev.dd hpd
    have huw2 : 0 ≤ uw := by
      have := hnn (dd, uw) (by simp)
      simpa using this
    simp only [stressRows, List.map_cons]
    refine List.chain'_cons.2 ⟨?_, ?_⟩
    · have t1 : 0 ≤ (prev.dd - prev.ad) * prev.uw := mul_nonneg (by linarith [hb.1]) huw
      have t2 : 0 ≤ (analysisDepth (some prev.dd) gwt dd - prev.dd) * uw :=
        mul_nonneg (by linarith [hb.1]) huw2
      linarith
    · exact ih ⟨dd, analysisDepth (some prev.dd) gwt dd, uw,
        (prev.dd - prev.ad) * prev.uw
          + (analysisDepth (some prev.dd) gwt dd - prev.dd) * uw + prev.cum⟩
        hb.2 huw2 (List.chain'_cons'.1 hchain).2
        (fun x hx => (List.chain'_cons'.1 hchain).1 x hx)
        (fun q hq => hnn q (List.mem_cons_of_mem _ hq))

/-- CLAIM C3 (amended): for a borehole whose layers are listed in order
with non-overlapping depth ranges (`0 ≤ top ≤ bottom ≤ next top`) and
whose provided unit weights are all non-negative, the cumulative total
vertical stress `累計sigmav` computed by `compute_coefficient` is
monotonic non-decreasing across the processed layers. -/
theorem cumulative_sigmav_monotone (gwt : ℚ) (ls : List RawLayer)
    (hchain : List.Chain' (fun a b => a.bottom ≤ b.top) ls)
    (hgeom : ∀ l ∈ ls, 0 ≤ l.top ∧ l.top ≤ l.bottom)
    (hdens : ∀ l ∈ ls, ∀ d, l.densityOpt = some d → 0 ≤ d) :
    List.Chain' (· ≤ ·) (cumulative_sigmav gwt ls) := by
  have hkc := keptPairs_chain ls hchain (fun l hl => (hgeom l hl).2)
  have hkm := fun p hp => keptPairs_mem ls p hp hgeom hdens
  unfold cumulative_sigmav compute_coefficient_rows
  cases hkp : keptPairs ls with
  | nil => simp [stressRows]
  | cons p rest =>
    obtain ⟨dd, uw⟩ := p
    rw [hkp] at hkc
    have hdd0 : 0 ≤ dd := by
      have := hkm (dd, uw) (by rw [hkp]; simp)
      simpa using this.1
    have huw0 : 0 ≤ uw := by
      have := hkm (dd, uw) (by rw [hkp]; simp)
      simpa using this.2
    simp only [stressRows, List.map_cons]
    exact stressRows_chain gwt rest
      ⟨dd, analysisDepth none gwt dd, uw, analysisDepth none gwt dd * uw⟩
      (analysisDepth_first_le gwt dd hdd0) huw0
      (List.chain'_cons'.1 hkc).2
      (fun x hx => (List.chain'_cons'.1 hkc).1 x hx)
      (fun q hq => (hkm q (by rw [hkp]; exact List.mem_cons_of_mem _ hq)).2)

/-- CLAIM C3 counterexample: two layers sorted by top depth
(`top 0 ≤ top 1`), each with `top < bottom` and non-negative unit
weights, on which the cumulative stress recurrence of
`compute_coefficient` decreases: `累計sigmav = [0, -7/2]`.  The layers
overlap (`bottom 10 > next top 1`), which the source never rejects. -/
theorem cumulative_sigmav_not_monotone_counterexample :
    List.Chain' (fun a b => a.top ≤ b.top)
      [RawLayer.mk 0 10 (some 0), RawLayer.mk 1 2 (some 2)] ∧
    (∀ l ∈ [RawLayer.mk 0 10 (some 0), RawLayer.mk 1 2 (some 2)],
      0 ≤ l.top ∧ l.top < l.bottom ∧ ∀ d, l.densityOpt = some d → 0 ≤ d) ∧
    cumulative_sigmav 0 [RawLayer.mk 0 10 (some 0), RawLayer.mk 1 2 (some 2)] = [0, -7/2] ∧
    ¬ List.Chain' (· ≤ ·)
      (cumulative_sigmav 0 [RawLayer.mk 0 10 (some 0), RawLayer.mk 1 2 (some 2)]) := by
  refine ⟨?_, ?_, ?_, ?_⟩
  · simp [List.chain'_cons]
  · intro l hl
    fin_cases hl <;> refine ⟨by norm_num, by norm_num, ?_⟩ <;>
      (intro d hd; simp_all) <;> (subst hd; norm_num)
  · norm_num [cumulative_sigmav, compute_coefficient_rows, keptPairs, dirtDepths,
      resolveDensity, stressRows, analysisDepth]
  · norm_num [cumulative_sigmav, compute_coefficient_rows, keptPairs, dirtDepths,
      resolveDensity, stressRows, analysisDepth, List.chain'_cons]

/-- Witness for `cumulative_sigmav_monotone`: the spec §8 style
three-layer fixture (one missing unit weight) with water table at 1 m
yields the non-decreasing stress column `[27/10, 18/5, 28/5]`. -/
theorem cumulative_sigmav_monotone_witness :
    cumulative_sigmav 1
      [RawLayer.mk 0 2 (some (9/5)), RawLayer.mk 2 4 none, RawLayer.mk 4 6 (some 2)]
      = [27/10, 18/5, 28/5] ∧
    List.Chain' (· ≤ ·) (cumulative_sigmav 1
      [RawLayer.mk 0 2 (some (9/5)), RawLayer.mk 2 4 none, RawLayer.mk 4 6 (some 2)]) :=
  ⟨by norm_num [cumulative_sigmav, compute_coefficient_rows, keptPairs, dirtDepths,
      resolveDensity, stressRows, analysisDepth],
   cumulative_sigmav_monotone 1
     [RawLayer.mk 0 2 (some (9/5)), RawLayer.mk 2 4 none, RawLayer.mk 4 6 (some 2)]
     (by simp [List.chain'_cons])
     (by intro l hl
         fin_cases hl <;> exact ⟨by norm_num, by norm_num⟩)
     (by intro l hl
         fin_cases hl <;> intro d hd <;> simp_all <;> (subst hd; norm_num))⟩

/-- CLAIM C4 (amended): in the NCEER class path a missing unit weight
resolves to exactly `0.0` (never forward-filled, never a nonzero
default), and both the missing layer's own stress term and the next
layer's previous-layer term use exactly `0.0`.  Stated for a three-layer
group whose dirt depths pass the 30 m filter. -/
theorem missing_unit_weight_uses_zero (gwt : ℚ) (l0 l1 l2 : RawLayer)
    (hmiss : l1.densityOpt = none)
    (h0 : (l0.bottom + l1.top) / 2 ≤ 30)
    (h1 : (l1.bottom + l2.top) / 2 ≤ 30)
    (h2 : l2.bottom ≤ 30) :
    resolveDensity l1 = 0 ∧
    ∃ r0 r1 r2 : StressRow,
      compute_coefficient_rows gwt [l0, l1, l2] = [r0, r1, r2] ∧
      r1.uw = 0 ∧
      r1.cum = (r0.dd - r0.ad) * resolveDensity l0 + (r1.ad - r0.dd) * 0 + r0.cum ∧
      r2.cum = (r1.dd - r1.ad) * 0 + (r2.ad - r1.dd) * resolveDensity l2 + r1.cum := by
  have hres : resolveDensity l1 = 0 := by simp [resolveDensity, hmiss]
  refine ⟨hres, ?_⟩
  simp only [compute_coefficient_rows, keptPairs, dirtDepths, List.map_cons, List.map_nil,
    List.zip_cons_cons, List.zip_nil_right, List.zip_nil_left, List.filter_cons,
    List.filter_nil, decide_eq_true_eq, h0, h1, h2, if_true]
  refine ⟨_, _, _, rfl, hres, ?_, ?_⟩
  · simp only [hres]
  · simp only [hres]

/-!
## analysis_engine.py builtin fallback path (rational fragments)
-/

/-- Python truthiness fallback `a if a else b` used by the builtin engine
on optional numeric fields: both `None` and `0.0` are falsy. -/
def truthyOr (a : Option ℚ) (b : ℚ) : ℚ :=
  match a with
  | none => b
  | some v => if v = 0 then b else v

/-- analysis_engine.py lines 401-410 `_calculate_total_stress`: the
builtin path substitutes `1.8` for a missing unit weight
(`layer.unit_weight if layer.unit_weight else 1.8`) and divides by 9.81
when the configured unit is kN/m³. -/
def calculate_total_stress (unit_weight_unit : String) (unit_weight : Option ℚ)
    (depth : ℚ) : ℚ :=
  let uw := truthyOr unit_weight (9/5)
  let uw := if unit_weight_unit = "kN/m3" then uw / (981/100) else uw
  uw * depth

/-- analysis_engine.py lines 412-427 `_calculate_effective_stress`:
subtract pore pressure below the water table and floor at `0.1`. -/
def calculate_effective_stress (unit_weight_unit : String) (unit_weight : Option ℚ)
    (water_depth depth : ℚ) : ℚ :=
  let total := calculate_total_stress unit_weight_unit unit_weight depth
  let eff := if water_depth < depth then total - 1 * (depth - water_depth) else total
  max (1/10) eff

/-- analysis_engine.py lines 429-432 `_calculate_n60`. -/
def calculate_n60 (em_value spt_n : ℚ) : ℚ := spt_n * (em_value / 60)

/-- CLAIM C4 counterexample: in the builtin engine path a layer whose
unit weight is missing gets `1.8` (not `0.0`): the total stress at depth
2 m is `3.6`, not the `0.0·2 = 0` the claim requires in "every engine
path". -/
theorem builtin_missing_unit_weight_counterexample :
    calculate_total_stress "t/m3" none 2 = 18/5 ∧ (18/5 : ℚ) ≠ 0 * 2 := by
  constructor
  · simp [calculate_total_stress, truthyOr]
    norm_num
  · norm_num

/-- Witness for `missing_unit_weight_uses_zero` at the three-layer
fixture with the middle unit weight missing. -/
theorem missing_unit_weight_uses_zero_witness :
    resolveDensity (RawLayer.mk 2 4 none) = 0 ∧
    ∃ r0 r1 r2 : StressRow,
      compute_coefficient_rows 1
        [RawLayer.mk 0 2 (some (9/5)), RawLayer.mk 2 4 none, RawLayer.mk 4 6 (some 2)]
        = [r0, r1, r2] ∧
      r1.uw = 0 ∧
      r1.cum = (r0.dd - r0.ad) * resolveDensity (RawLayer.mk 0 2 (some (9/5)))
        + (r1.ad - r0.dd) * 0 + r0.cum ∧
      r2.cum = (r1.dd - r1.ad) * 0
        + (r2.ad - r1.dd) * resolveDensity (RawLayer.mk 4 6 (some 2)) + r1.cum :=
  missing_unit_weight_uses_zero 1
    (RawLayer.mk 0 2 (some (9/5))) (RawLayer.mk 2 4 none) (RawLayer.mk 4 6 (some 2))
    rfl (by norm_num) (by norm_num) (by norm_num)

/-- Exact multiples of the quantum are fixed points of Python rounding. -/
theorem pyRound_eq_self (d : ℕ) (k : ℤ) :
    pyRound d ((k : ℚ) / (10 : ℚ) ^ d) = (k : ℚ) / (10 : ℚ) ^ d :=
  le_antisymm (pyRound_le_of_le d _ k le_rfl) (le_pyRound_of_le d _ k le_rfl)

/-- CLAIM C5 (amended, NCEER class path): `get_scenario_mw` adds the
fixed adjustment 0 / −0.2 / +0.2 for Design / MidEq / MaxEq, clamps to
`[5.0, 8.5]` and rounds the result to one decimal, so the value it
returns always lies in `[5.0, 8.5]`. -/
theorem get_scenario_mw_spec (base : ℚ) :
    get_scenario_mw base "Design" = pyRound 1 (max 5 (min (17/2) (base + 0))) ∧
    get_scenario_mw base "MidEq" = pyRound 1 (max 5 (min (17/2) (base - 1/5))) ∧
    get_scenario_mw base "MaxEq" = pyRound 1 (max 5 (min (17/2) (base + 1/5))) ∧
    ∀ scen : String, 5 ≤ get_scenario_mw base scen ∧ get_scenario_mw base scen ≤ 17/2 := by
  refine ⟨?_, ?_, ?_, ?_⟩
  · simp [get_scenario_mw, earthquake_mw_adjustments]
  · simp [get_scenario_mw, earthquake_mw_adjustments, sub_eq_add_neg]
  · simp [get_scenario_mw, earthquake_mw_adjustments]
  · intro scen
    unfold get_scenario_mw
    set c : ℚ := max 5 (min (17/2) (base + earthquake_mw_adjustments scen)) with hc
    have h5 : 5 ≤ c := le_max_left _ _
    have h85 : c ≤ 17/2 := by
      have := min_le_left (17/2 : ℚ) (base + earthquake_mw_adjustments scen)
      rw [hc]
      exact max_le (by norm_num) this
    constructor
    · have := le_pyRound_of_le 1 c 50 (by push_cast; linarith)
      calc (5 : ℚ) = (50 : ℤ) / (10 : ℚ) ^ 1 := by norm_num
        _ ≤ pyRound 1 c := this
    · have := pyRound_le_of_le 1 c 85 (by push_cast; linarith)
      calc pyRound 1 c ≤ (85 : ℤ) / (10 : ℚ) ^ 1 := this
        _ = 17/2 := by norm_num

/-!
## analysis_engine.py `_calculate_earthquake_scenario` (lines 571-635)
-/

/-- Output dictionary of the builtin `_calculate_earthquake_scenario`. -/
structure ScenResult where
  mw : ℝ
  a_value : ℝ
  sd_s : ℝ
  sm_s : ℝ
  msf : ℝ
  rd : ℝ
  csr : ℝ
  crr : ℝ
  fs : ℝ
  lpi : ℝ

/-- Python `f(v) if v else default` on an optional float field (`None`
and `0.0` are falsy). -/
def pyIfTruthy (a : Option ℚ) (f : ℚ → ℚ) (default : ℚ) : ℚ :=
  match a with
  | none => default
  | some v => if v = 0 then default else f v

open Classical in
/-- analysis_engine.py lines 571-635 `_calculate_earthquake_scenario`:
the builtin scenario branch uses ±0.5 magnitude shifts (unclamped),
`a_value = sd_s·2.5/9.81`, the Mw-conditional MSF, the piecewise-linear
`rd` floored at 0.1, `CSR = 0.65·a_value·(σ'/σ')·rd`, and
`FS = CRR/CSR` when `CSR>0` else `999`, all rounded for output. -/
noncomputable def calculate_earthquake_scen (base_mw sds sms : Option ℚ)
    (depth sigma_v_prime : ℚ) (crr_7_5 : ℝ) (scen : String) : ScenResult :=
  let mwq : ℚ :=
    if scen = "design" then pyIfTruthy base_mw (fun b => b) 6.5
    else if scen = "mid" then pyIfTruthy base_mw (fun b => b - 0.5) 6.0
    else pyIfTruthy base_mw (fun b => b + 0.5) 7.0
  let sdsq : ℚ :=
    if scen = "design" then pyIfTruthy sds (fun v => v) 0.6
    else if scen = "mid" then pyIfTruthy sds (fun v => v * 0.7) 0.42
    else pyIfTruthy sds (fun v => v * 1.3) 0.78
  let smsq : ℚ :=
    if scen = "design" then pyIfTruthy sms (fun v => v) 1.0
    else if scen = "mid" then pyIfTruthy sms (fun v => v * 0.7) 0.7
    else pyIfTruthy sms (fun v => v * 1.3) 1.3
  let a_value : ℚ := sdsq * 2.5 / 9.81
  let msf : ℝ := if mwq < 7.5 then 6.9 * Real.exp (-(mwq : ℝ) / 4) - 0.058 else 0.84
  let rd0 : ℚ :=
    if depth ≤ 9.15 then 1.0 - 0.00765 * depth
    else if depth ≤ 23 then 1.174 - 0.0267 * depth
    else 0.744 - 0.008 * depth
  let rd : ℚ := max 0.1 rd0
  let csr : ℚ := 0.65 * (a_value * sigma_v_prime / sigma_v_prime) * rd
  let crr : ℝ := crr_7_5 * msf
  let fs : ℝ := if 0 < csr then crr / (csr : ℝ) else 999
  let lpi : ℝ :=
    if depth ≤ 20 then (if fs < 1 then (1 - fs) * (10 - 0.5 * (depth : ℝ)) else 0) else 0
  { mw := ((pyRound 1 mwq : ℚ) : ℝ)
    a_value := ((pyRound 3 a_value : ℚ) : ℝ)
    sd_s := ((pyRound 3 sdsq : ℚ) : ℝ)
    sm_s := ((pyRound 3 smsq : ℚ) : ℝ)
    msf := pyRoundR 3 msf
    rd := ((pyRound 3 rd : ℚ) : ℝ)
    csr := ((pyRound 3 csr : ℚ) : ℝ)
    crr := pyRoundR 3 crr
    fs := pyRoundR 2 fs
    lpi := pyRoundR 2 lpi }

/-- CLAIM C5 counterexample: for the builtin engine path with
`base_mw = 7.3`, the moderate scenario uses `7.3 - 0.5 = 6.8`, not the
claimed `clamp(7.3 - 0.2, 5.0, 8.5) = 7.1`. -/
theorem builtin_mw_adjustment_counterexample :
    (calculate_earthquake_scen (some 7.3) none none 2 1 (2/5) "mid").mw = 6.8 ∧
    ((6.8 : ℝ) ≠ ((max 5 (min (17/2) (7.3 - 1/5)) : ℚ) : ℝ)) := by
  constructor
  · simp only [calculate_earthquake_scen, pyIfTruthy]
    norm_num
    rw [if_neg (by decide : ¬ ("mid" = "design"))]
    rw [show (34/5 : ℚ) = (68 : ℤ) / (10 : ℚ) ^ 1 by norm_num, pyRound_eq_self]
    norm_num
  · norm_num

/-- NCEER.py lines 1784-1789 (with the `format_result` applied to the
returned dictionary value): the class-path final safety-factor step
`FS = min(CRR/CSR, 3)` when `CSR > 0`, else `FS = 3`. -/
def calculate_FS_final (CSR CRR : ℚ) : ℚ :=
  format_result (if 0 < CSR then min (CRR / CSR) 3 else 3)

/-- CLAIM C1 (amended, NCEER class path): the numeric FS produced by
`calculate_FS` satisfies `FS = min(CRR/CSR, 3)` for `CSR > 0` and
`FS = 3` for `CSR ≤ 0`, hence `FS ≤ 3` always, and `0 ≤ FS` whenever
`CRR ≥ 0`.  (The builtin engine path violates the cap, see the
counterexample.) -/
theorem calculate_FS_final_spec (CSR CRR : ℚ) :
    (0 < CSR → calculate_FS_final CSR CRR = format_result (min (CRR / CSR) 3)) ∧
    (CSR ≤ 0 → calculate_FS_final CSR CRR = 3) ∧
    calculate_FS_final CSR CRR ≤ 3 ∧
    (0 ≤ CRR → 0 ≤ calculate_FS_final CSR CRR) := by
  have hfmt3 : format_result 3 = 3 := by
    unfold format_result
    rw [show (3 : ℚ) = (3000 : ℤ) / (10 : ℚ) ^ 3 by norm_num]
    exact roundHalfUp_eq_self 3 3000
  refine ⟨?_, ?_, ?_, ?_⟩
  · intro h
    simp [calculate_FS_final, h]
  · intro h
    rw [calculate_FS_final, if_neg (not_lt.2 h)]
    exact hfmt3
  · unfold calculate_FS_final format_result
    apply le_of_le_of_eq (roundHalfUp_le_of_le 3 _ 3000 ?_) (by norm_num)
    rw [show ((3000 : ℤ) : ℚ) / (10 : ℚ) ^ 3 = 3 by norm_num]
    split
    · exact min_le_right _ _
    · exact le_refl _
  · intro h
    unfold calculate_FS_final
    apply roundHalfUp_nonneg
    split
    · rename_i hc
      exact le_min (div_nonneg h (le_of_lt hc)) (by norm_num)
    · norm_num

/-- Witness for `calculate_FS_final_spec` at `CSR = 1/10`, `CRR = 2/5`. -/
theorem calculate_FS_final_spec_witness :
    calculate_FS_final (1/10) (2/5) = format_result (min ((2/5) / (1/10)) 3) ∧
    calculate_FS_final (1/10) (2/5) ≤ 3 ∧
    0 ≤ calculate_FS_final (1/10) (2/5) :=
  ⟨(calculate_FS_final_spec (1/10) (2/5)).1 (by norm_num),
   (calculate_FS_final_spec (1/10) (2/5)).2.2.1,
   (calculate_FS_final_spec (1/10) (2/5)).2.2.2 (by norm_num)⟩

/-- CLAIM C1 counterexample: the builtin engine path reports `FS > 3`.
With defaults `SDS`/`SMS` absent, `base_mw = 7.5`, depth 2 m and
`CRR7.5 = 0.4`, the builtin design scenario computes
`FS = CRR/CSR = 439488/128011 ≈ 3.43` with no cap (and `999` when
`CSR ≤ 0`), violating `FS ≤ 3`. -/
theorem builtin_fs_exceeds_cap_counterexample :
    3 < (calculate_earthquake_scen (some 7.5) none none 2 1 (2/5) "design").fs := by
  have key : ∀ x : ℝ, 3.01 ≤ x → 3 < pyRoundR 2 x := by
    intro x hx
    have h := pyRoundR_gt 2 x
    have h10 : (1 : ℝ) / (10 : ℝ) ^ 2 = 0.01 := by norm_num
    rw [h10] at h
    nlinarith
  simp only [calculate_earthquake_scen, pyIfTruthy]
  norm_num
  apply key
  rw [le_div_iff₀ (by positivity)]
  norm_num

/-!
## CRR7.5 formulas (builtin `_calculate_crr_7_5`, class `compute_CRR_7_5`)
-/

open Classical in
/-- analysis_engine.py lines 520-569 `_calculate_crr_7_5`: method
dispatch with per-method piecewise formulas, all floored at `0.01`. -/
noncomputable def calculate_crr_7_5 (method : String) (n1_60cs : ℝ) : ℝ :=
  let crr : ℝ :=
    if method = "HBF" then
      if n1_60cs < 2 then 0
      else if n1_60cs ≤ 30 then min (0.0104 * (n1_60cs + 1) ^ (2.32 : ℝ) / 1000) 0.25
      else 0.25
    else if method = "NCEER" then
      if n1_60cs < 2 then 0
      else if n1_60cs ≤ 30 then 1 / (34 - n1_60cs) + n1_60cs / 135 - 1 / 200
      else 0.25
    else if method = "AIJ" then
      if n1_60cs < 4 then 0
      else if n1_60cs ≤ 14 then 0.0882 * Real.sqrt (n1_60cs / 1.7)
      else 0.0882 * Real.sqrt (14 / 1.7)
    else if method = "JRA" then
      if n1_60cs < 4 then 0
      else if n1_60cs ≤ 14 then 0.0882 * Real.sqrt (n1_60cs / 1.7)
      else 0.25
    else
      if n1_60cs < 2 then 0
      else if n1_60cs ≤ 30 then 1 / (34 - n1_60cs) + n1_60cs / 135 - 1 / 200
      else 0.25
  max 0.01 crr

/-- NCEER.py lines 1614-1634 `compute_CRR_7_5`, as a function of an
already-computed `N1_60cs` value: one unconditional four-term formula
(no `x ≤ 30` branch, no `0.25` plateau, no `0.01` floor), formatted to 3
decimals; a `ZeroDivisionError` (only at `x = 34` or `10x + 45 = 0`) is
caught and returns the `"-"` sentinel, modelled as `none`. -/
def compute_CRR_7_5_value (x : ℚ) : Option ℚ :=
  if 34 - x = 0 ∨ (10 * x + 45) ^ 2 = 0 then none
  else some (format_result (1 / (34 - x) + x / 135 + 50 / (10 * x + 45) ^ 2 - 1 / 200))

/-- CLAIM C6 counterexample: at `(N1)60cs = 1` the builtin NCEER branch
returns the floor `0.01` (its extra `x < 2 ⇒ 0` branch), not the claimed
formula value `1/33 + 1/135 - 1/200 = 1943/59400 ≈ 0.0327`; the NCEER
class path returns `0.049` there (its four-term formula), so neither
path computes the claimed piecewise function. -/
theorem crr_7_5_claim_counterexample :
    calculate_crr_7_5 "NCEER" 1 = 0.01 ∧
    (0.01 : ℝ) ≠ 1 / (34 - 1) + 1 / 135 - 1 / 200 ∧
    compute_CRR_7_5_value 1 = some (format_result (1 / 33 + 1 / 135 + 50 / 3025 - 1 / 200)) ∧
    format_result (1 / 33 + 1 / 135 + 50 / 3025 - 1 / 200) ≠
      format_result (1 / 33 + 1 / 135 - 1 / 200) := by
  refine ⟨?_, by norm_num, ?_, ?_⟩
  · simp only [calculate_crr_7_5]
    norm_num
  · simp only [compute_CRR_7_5_value]
    norm_num
  · unfold format_result
    rw [roundHalfUp_eval 3 (1/33 + 1/135 + 50/3025 - 1/200) 49 (by norm_num) (by norm_num)
          (by norm_num),
        roundHalfUp_eval 3 (1/33 + 1/135 - 1/200) 33 (by norm_num) (by norm_num) (by norm_num)]
    norm_num

/-- CLAIM C6 (amended): the builtin engine's NCEER branch computes
`CRR7.5 = 1/(34-x) + x/135 - 1/200` for `2 ≤ x ≤ 30`, `0.25` for
`x > 30`, and `0.01` for `x < 2` (the `0.0` branch pulled up by the
`0.01` floor); the returned value is never below `0.01`.  (The NCEER
class path uses a different four-term formula with no plateau and no
floor, see the counterexample.) -/
theorem crr_7_5_builtin_NCEER_spec (x : ℝ) :
    (2 ≤ x → x ≤ 30 → calculate_crr_7_5 "NCEER" x = 1 / (34 - x) + x / 135 - 1 / 200) ∧
    (30 < x → calculate_crr_7_5 "NCEER" x = 0.25) ∧
    (x < 2 → calculate_crr_7_5 "NCEER" x = 0.01) ∧
    0.01 ≤ calculate_crr_7_5 "NCEER" x := by
  refine ⟨?_, ?_, ?_, ?_⟩
  · intro h2 h30
    simp only [calculate_crr_7_5]
    rw [if_neg (by decide : ¬ ("NCEER" = "HBF"))]
    simp only [if_true]
    rw [if_neg (not_lt.2 h2), if_pos h30]
    apply max_eq_right
    have hpos : (0 : ℝ) < 34 - x := by linarith
    have h32 : 34 - x ≤ 32 := by linarith
    have hinv : (1 : ℝ) / 32 ≤ 1 / (34 - x) := one_div_le_one_div_of_le hpos h32
    have hx : (2 : ℝ) / 135 ≤ x / 135 := by linarith
    have h001 : (0.01 : ℝ) = 1/100 := by norm_num
    rw [h001]
    linarith
  · intro h30
    simp only [calculate_crr_7_5]
    rw [if_neg (by decide : ¬ ("NCEER" = "HBF"))]
    simp only [if_true]
    rw [if_neg (by linarith : ¬ x < 2), if_neg (not_le.2 h30)]
    norm_num
  · intro h2
    simp only [calculate_crr_7_5]
    rw [if_neg (by decide : ¬ ("NCEER" = "HBF"))]
    simp only [if_true]
    rw [if_pos h2]
    norm_num
  · simp only [calculate_crr_7_5]
    exact le_max_left _ _

/-- Witness for `crr_7_5_builtin_NCEER_spec` at `x = 17`. -/
theorem crr_7_5_builtin_NCEER_spec_witness :
    calculate_crr_7_5 "NCEER" 17 = 1 / (34 - 17) + 17 / 135 - 1 / 200 ∧
    0.01 ≤ calculate_crr_7_5 "NCEER" 17 :=
  ⟨(crr_7_5_builtin_NCEER_spec 17).1 (by norm_num) (by norm_num),
   (crr_7_5_builtin_NCEER_spec 17).2.2.2⟩

/-!
## NCEER.compute_N60 / compute_N1_60 (NCEER.py lines 1535-1573)

The stress columns are pandas float64 values, so `self.Pa / sigma_v_CRR`
follows IEEE semantics (`100/0.0 = inf` with a warning, `100/neg` then
`np.sqrt` gives `nan`); no exception is raised.  `NpFloat` models the
numpy scalar domain.
-/

/-- Decimal `ROUND_HALF_UP` to `d` decimals over `ℝ` (for
`format_result` applied to float values that are not rational). -/
noncomputable def roundHalfUpR (d : ℕ) (x : ℝ) : ℝ :=
  let m : ℝ := (10 : ℝ) ^ d
  let s : ℝ := x * m
  let r : ℤ := if 0 ≤ s then ⌊s + 1/2⌋ else -⌊-s + 1/2⌋
  (r : ℝ) / m

/-- A numpy float64 scalar: finite, signed infinity, or NaN. -/
inductive NpFloat
  | fin (x : ℝ)
  | posInf
  | negInf
  | nan

/-- A value cell of the result table: a number or the `"-"` sentinel. -/
inductive PyVal
  | num (x : ℝ)
  | dash
deriving Inhabited

open Classical in
/-- `self.Pa / sigma_v_CRR` with `Pa = 100` under numpy float semantics:
division by `0.0` yields `+inf` (runtime warning, not an exception). -/
noncomputable def npDiv_Pa : NpFloat → NpFloat
  | .fin x => if x = 0 then .posInf else .fin (100 / x)
  | .posInf => .fin 0
  | .negInf => .fin 0
  | .nan => .nan

open Classical in
/-- `np.sqrt`: NaN on negative finite arguments (runtime warning). -/
noncomputable def npSqrt : NpFloat → NpFloat
  | .fin x => if x < 0 then .nan else .fin (Real.sqrt x)
  | .posInf => .posInf
  | .negInf => .nan
  | .nan => .nan

/-- `np.minimum(·, 1.7)` (NaN-propagating). -/
noncomputable def npMin17 : NpFloat → NpFloat
  | .fin x => .fin (min x 1.7)
  | .posInf => .fin 1.7
  | .negInf => .negInf
  | .nan => .nan

open Classical in
/-- Multiplication of a numpy scalar by a finite float. -/
noncomputable def npMulFin : NpFloat → ℝ → NpFloat
  | .nan, _ => .nan
  | .posInf, b => if b = 0 then .nan else if 0 < b then .posInf else .negInf
  | .negInf, b => if b = 0 then .nan else if 0 < b then .negInf else .posInf
  | .fin x, b => .fin (x * b)

/-- `format_result` on a numpy scalar: NaN and infinities quantize to
the `"-"` sentinel (Decimal raises, caught by the `ArithmeticError`
handler); finite values are rounded half-up to 3 decimals. -/
noncomputable def npFormat : NpFloat → PyVal
  | .fin x => .num (roundHalfUpR 3 x)
  | _ => .dash

/-- NCEER.py lines 1535-1555 `compute_N60`: `N60 = N × Em/60`, formatted,
with `0.00` when the N value is missing. -/
def compute_N60 (N : Option ℚ) (Em : ℚ) : ℚ :=
  match N with
  | none => 0
  | some n => format_result (n * Em / 60)

/-- NCEER.py lines 1557-1573 `compute_N1_60`: returns `0.00` when the N
value is missing or `累計sigmav` is missing/≤ 0; otherwise
`Cn = np.minimum(np.sqrt(100 / sigma_v_CRR), 1.7)` and
`N1_60 = Cn × N60`, formatted.  There is no positive floor on
`sigma_v_CRR`: zero gives `Cn = 1.7` through `inf`, and negative values
give NaN hence the `"-"` sentinel. -/
noncomputable def compute_N1_60 (N sigma_v sigma_v_CRR : Option ℚ) (Em : ℚ) : PyVal :=
  let N60 : ℚ := compute_N60 N Em
  match N, sigma_v with
  | none, _ => .num 0
  | some _, none => .num 0
  | some _, some sv =>
      if sv ≤ 0 then .num 0
      else
        let sCRR : NpFloat := match sigma_v_CRR with
          | none => .nan
          | some v => .fin (v : ℝ)
        npFormat (npMulFin (npMin17 (npSqrt (npDiv_Pa sCRR))) (N60 : ℝ))

/-- CLAIM C8 counterexample: at `sigma_v_CRR = -1` (with N = 10,
`累計sigmav = 1 > 0`, Em = 72, so N60 = 12) `compute_N1_60` returns the
`"-"` sentinel, not the numeric value `12 × min(1.7, sqrt(100/max(0.1,
sigma_v_CRR))) = 20.4` that the claimed positive-floor evaluation would
produce. -/
theorem compute_N1_60_no_floor_counterexample :
    compute_N1_60 (some 10) (some 1) (some (-1)) 72 = PyVal.dash ∧
    PyVal.dash ≠ PyVal.num (12 * min 1.7 (Real.sqrt (100 / max 0.1 (-1)))) := by
  constructor
  · simp only [compute_N1_60, npDiv_Pa, npSqrt, npMin17, npMulFin, npFormat]
    norm_num
  · simp

/-- CLAIM C8 (amended): `compute_N1_60` is total — it never raises.  It
returns `0.00` when N is missing or `累計sigmav` is missing or ≤ 0; with
`sigma_v_CRR` missing it returns the `"-"` sentinel (NaN propagation);
with `sigma_v_CRR = 0` the IEEE `inf` is clamped by the `min` to
`Cn = 1.7`; with `sigma_v_CRR < 0` the square root is NaN and the
sentinel `"-"` is returned; with `sigma_v_CRR > 0` it returns the
formatted `min(sqrt(100/σ'), 1.7) × N60`.  No positive floor is applied
to the effective stress anywhere in this function. -/
theorem compute_N1_60_total_spec (Em : ℚ) (n sv : ℚ) (sCRR : Option ℚ) :
    (∀ sv' s', compute_N1_60 none sv' s' Em = .num 0) ∧
    (∀ s', compute_N1_60 (some n) none s' Em = .num 0) ∧
    (sv ≤ 0 → compute_N1_60 (some n) (some sv) sCRR Em = .num 0) ∧
    (0 < sv → sCRR = none → compute_N1_60 (some n) (some sv) sCRR Em = .dash) ∧
    (∀ s, 0 < sv → sCRR = some s → s < 0 →
      compute_N1_60 (some n) (some sv) sCRR Em = .dash) ∧
    (0 < sv → sCRR = some 0 →
      compute_N1_60 (some n) (some sv) sCRR Em
        = .num (roundHalfUpR 3 (1.7 * (compute_N60 (some n) Em : ℝ)))) ∧
    (∀ s, 0 < sv → sCRR = some s → 0 < s →
      compute_N1_60 (some n) (some sv) sCRR Em
        = .num (roundHalfUpR 3 (min (Real.sqrt (100 / (s : ℝ))) 1.7
            * (compute_N60 (some n) Em : ℝ)))) := by
  refine ⟨?_, ?_, ?_, ?_, ?_, ?_, ?_⟩
  · intro sv' s'
    cases sv' <;> simp [compute_N1_60]
  · intro s'
    simp [compute_N1_60]
  · intro h
    simp [compute_N1_60, h]
  · intro hsv hnone
    subst hnone
    simp [compute_N1_60, not_le.2 hsv, npDiv_Pa, npSqrt, npMin17, npMulFin, npFormat]
  · intro s hsv hs hneg
    subst hs
    have hne : ((s : ℝ)) ≠ 0 := by exact_mod_cast hneg.ne
    have hdivneg : (100 : ℝ) / (s : ℝ) < 0 :=
      div_neg_of_pos_of_neg (by norm_num) (by exact_mod_cast hneg)
    simp only [compute_N1_60, if_neg (not_le.2 hsv), npDiv_Pa, if_neg hne]
    simp only [npSqrt, if_pos hdivneg, npMin17, npMulFin, npFormat]
  · intro hsv hzero
    subst hzero
    simp only [compute_N1_60, if_neg (not_le.2 hsv), npDiv_Pa]
    norm_num
    simp only [npSqrt, npMin17, npMulFin, npFormat]
    ring_nf
  · intro s hsv hs hpos
    subst hs
    have hne : ((s : ℝ)) ≠ 0 := by positivity
    have hdivpos : (0 : ℝ) ≤ (100 : ℝ) / (s : ℝ) := by positivity
    simp only [compute_N1_60, if_neg (not_le.2 hsv), npDiv_Pa, if_neg hne]
    simp only [npSqrt, if_neg (not_lt.2 hdivpos), npMin17, npMulFin, npFormat]

/-- Witness for `compute_N1_60_total_spec`: the zero-effective-stress
case evaluates to the clamped `Cn = 1.7` without raising. -/
theorem compute_N1_60_total_spec_witness :
    compute_N1_60 (some 10) (some 1) (some 0) 72
      = .num (roundHalfUpR 3 (1.7 * (compute_N60 (some 10) 72 : ℝ))) :=
  (compute_N1_60_total_spec 72 10 1 (some 0)).2.2.2.2.2.1 (by norm_num) rfl

/-!
## NCEER.calculate_FS, `CRR_7_5 == "-"` branch (NCEER.py lines 1690-1742)
-/

/-- Output dictionary of `calculate_FS` (one scenario). -/
structure FSResult where
  mw_used : PyVal
  a_value : PyVal
  sd_s : PyVal
  sm_s : PyVal
  msf : PyVal
  rd : PyVal
  csr : PyVal
  crr : PyVal
  fs : PyVal

/-- NCEER.py line 1704/1774: the NCEER rational-polynomial stress
reduction coefficient in the analysis depth `z`. -/
noncomputable def NCEER_rd (z : ℝ) : ℝ :=
  (1 - 0.4113 * Real.sqrt z + 0.04052 * z + 0.001753 * z ^ (1.5 : ℝ))
    / (1 - 0.4117 * Real.sqrt z + 0.05729 * z - 0.006205 * z ^ (1.5 : ℝ)
        + 0.001210 * z ^ (2 : ℕ))

/-- The Python local variable `depth` of `calculate_FS` at line 1703
(`z = depth`).  `depth` is first assigned only at line 1748, later in
the same function body, so at line 1703 it is an unbound local: reading
it raises `UnboundLocalError`. -/
def depth_local_at_line_1703 : Option ℚ := none

open Classical in
/-- NCEER.py lines 1690-1742: the `CRR_7_5 == "-"` short-circuit branch
of `calculate_FS`.  The `try` block (lines 1695-1719) computes
`A_value`, `SD_S`, `SM_S` and `MSF`, then executes `z = depth`
(line 1703); since `depth` is unbound there, `UnboundLocalError` is
raised and the `except Exception` handler (lines 1721-1730) overwrites
every intermediate with `"-"`; only `Mw_used` (computed before the
`try`) and the literal `FS = 3.0` survive.  The `some` branch below is
what the `try` body would have produced had `depth` been bound. -/
noncomputable def calculate_FS_crr_undefined (base_mw : ℚ) (scen : String)
    (A_value SD_S SM_S : ℝ) (sigma_v sigma_v_CSR : Option ℚ) : FSResult :=
  let mw_value : ℚ := get_scenario_mw base_mw scen
  let MSF : ℝ := ((mw_value : ℝ) / 7.5) ^ (-(2.56 : ℝ))
  match depth_local_at_line_1703 with
  | none =>
      { mw_used := .num ((format_result mw_value : ℚ) : ℝ)
        a_value := .dash
        sd_s := .dash
        sm_s := .dash
        msf := .dash
        rd := .dash
        csr := .dash
        crr := .dash
        fs := .num 3 }
  | some z =>
      let rd : ℝ := NCEER_rd (z : ℝ)
      let CSR : PyVal := match sigma_v, sigma_v_CSR with
        | some sv, some scsr => .num (roundHalfUpR 3 (0.65 * A_value * ((sv : ℝ) / (scsr : ℝ)) * rd))
        | _, _ => .dash
      { mw_used := .num ((format_result mw_value : ℚ) : ℝ)
        a_value := .num (roundHalfUpR 3 A_value)
        sd_s := .num (roundHalfUpR 3 SD_S)
        sm_s := .num (roundHalfUpR 3 SM_S)
        msf := .num (roundHalfUpR 3 MSF)
        rd := .num (roundHalfUpR 3 rd)
        csr := CSR
        crr := .dash
        fs := .num 3 }

/-- CLAIM C7 (code bug): whenever `CRR_7_5` is undefined, `calculate_FS`
returns `FS = 3` and a populated `Mw_used`, but `A_value`, `MSF`, `rd`
(and `SD_S`, `SM_S`, `CSR`, `CRR`) all come back `"-"` even though their
inputs are available — the `z = depth` slip at line 1703 always raises
inside the `try`, so the claim's "still populating Mw_used, A_value,
MSF, rd" fails for every input. -/
theorem calculate_FS_crr_undefined_discards_intermediates :
    ∀ (A SD SM : ℝ) (sv scsr : Option ℚ),
      (calculate_FS_crr_undefined 7.3 "Design" A SD SM sv scsr).fs = .num 3 ∧
      (calculate_FS_crr_undefined 7.3 "Design" A SD SM sv scsr).mw_used = .num 7.3 ∧
      (calculate_FS_crr_undefined 7.3 "Design" A SD SM sv scsr).a_value = .dash ∧
      (calculate_FS_crr_undefined 7.3 "Design" A SD SM sv scsr).msf = .dash ∧
      (calculate_FS_crr_undefined 7.3 "Design" A SD SM sv scsr).rd = .dash ∧
      (calculate_FS_crr_undefined 7.3 "Design" A SD SM sv scsr).sd_s = .dash ∧
      (calculate_FS_crr_undefined 7.3 "Design" A SD SM sv scsr).sm_s = .dash ∧
      (calculate_FS_crr_undefined 7.3 "Design" A SD SM sv scsr).csr = .dash ∧
      (calculate_FS_crr_undefined 7.3 "Design" A SD SM sv scsr).crr = .dash := by
  intro A SD SM sv scsr
  have hmw : get_scenario_mw 7.3 "Design" = 7.3 := by
    simp only [get_scenario_mw, earthquake_mw_adjustments, if_pos rfl]
    norm_num
    rw [show (73/10 : ℚ) = (73 : ℤ) / (10 : ℚ) ^ 1 by norm_num, pyRound_eq_self]
  have hfmt : format_result (7.3 : ℚ) = 7.3 := by
    unfold format_result
    rw [show (7.3 : ℚ) = (7300 : ℤ) / (10 : ℚ) ^ 3 by norm_num, roundHalfUp_eq_self]
  simp only [calculate_FS_crr_undefined, depth_local_at_line_1703, hmw, hfmt]
  norm_num

/-!
## analysis_engine.py builtin layer analysis (lines 241-518)
-/

/-- One soil-layer database row, with the fields the builtin engine
reads (`None` modelled as `none`; a missing USCS as `""`). -/
structure SoilRow where
  top_depth : ℚ
  bottom_depth : ℚ
  uscs : String
  spt_n : Option ℚ
  fines_content : Option ℚ
  plastic_index : Option ℚ
  unit_weight : Option ℚ

/-- One borehole row, with the fields the builtin engine reads. -/
structure BoreholeRec where
  borehole_id : String
  water_depth : ℚ
  base_mw : Option ℚ
  sds : Option ℚ
  sms : Option ℚ

/-- Python `str.upper()` (character-wise uppercase). -/
def pyToUpper (s : String) : String := String.mk (s.data.map Char.toUpper)

/-- Python `str.startswith(t)`. -/
def pyStartsWith (s t : String) : Bool := List.isPrefixOf t.data s.data

/-- `any(uscs.startswith(t) for t in ts)`. -/
def startsWithAny (s : String) (ts : List String) : Bool :=
  ts.any (fun t => pyStartsWith s t)

/-- `a is not None and a > t` on an optional numeric field. -/
def optGT (a : Option ℚ) (t : ℚ) : Bool :=
  match a with
  | some v => decide (t < v)
  | none => false

/-- analysis_engine.py lines 344-399 `_is_liquefiable_soil`: an empty or
missing USCS code returns `False` immediately; otherwise method-specific
non-liquefiable / liquefiable prefix sets and fines-content /
plasticity-index thresholds decide. -/
def is_liquefiable_soil (method : String) (layer : SoilRow) : Bool :=
  if layer.uscs = "" then false
  else
    let u := pyToUpper layer.uscs
    if method = "HBF" then
      if startsWithAny u ["CH", "MH", "OH", "PT", "GW", "GP", "GM", "GC"] then false
      else if startsWithAny u ["SM", "SP", "SW", "SC", "ML", "CL"] then
        if optGT layer.fines_content 35 && optGT layer.plastic_index 12 then false
        else true
      else false
    else if method = "AIJ" || method = "JRA" then
      if startsWithAny u ["CH", "MH", "OH", "PT", "GW", "GP", "GM", "GC", "CL", "SC"] then false
      else if startsWithAny u ["SM", "SP", "SW", "ML"] then
        if optGT layer.fines_content 35 then false
        else if optGT layer.plastic_index 15 then false
        else true
      else false
    else
      if startsWithAny u ["CH", "MH", "OH", "PT", "GW", "GP", "GM", "GC"] then false
      else if startsWithAny u ["SM", "SP", "SW", "SC", "ML", "CL"] then
        if optGT layer.fines_content 35 then false
        else if optGT layer.plastic_index 18 then false
        else true
      else false

/-- analysis_engine.py lines 434-438 `_calculate_n1_60`. -/
noncomputable def calculate_n1_60 (n60 sigma_v_prime : ℚ) : ℝ :=
  (n60 : ℝ) * min 1.7 (Real.sqrt (100 / (sigma_v_prime : ℝ)))

open Classical in
/-- analysis_engine.py lines 440-511 `_calculate_n1_60cs`: method-specific
fines-content correction added to `(N1)60`. -/
noncomputable def calculate_n1_60cs (method : String) (fines_content : Option ℚ)
    (n1_60 : ℝ) : ℝ :=
  match fines_content with
  | none => n1_60
  | some fc =>
    if method = "HBF" then
      let dn : ℚ :=
        if fc ≤ 5 then 0
        else if fc ≤ 15 then 2.0 * (fc - 5) / 10
        else if fc ≤ 35 then 2.0 + 3.0 * (fc - 15) / 20
        else 5.0
      n1_60 + (dn : ℝ)
    else if method = "AIJ" then
      if 10 < fc then n1_60 + min ((3.0 * (fc - 10) / 40 : ℚ) : ℝ) 3.0 else n1_60
    else if method = "JRA" then
      if 15 < fc then n1_60 + min ((2.5 * (fc - 15) / 20 : ℚ) : ℝ) 2.5 else n1_60
    else
      -- NCEER and the default branch share this correction
      let dn : ℝ :=
        if fc ≤ 5 then 0
        else if fc ≤ 35 then
          Real.exp ((1.63 + 9.7 / (fc + 0.01) - (15.7 / (fc + 0.01)) ^ (2 : ℕ) : ℚ))
        else 5.0
      n1_60 + dn

/-- analysis_engine.py lines 513-518 `_estimate_vs`. -/
noncomputable def estimate_vs (n1_60 : ℝ) : ℝ :=
  pyRoundR 1 (114.4 * n1_60 ^ (0.302 : ℝ))

/-- The `AnalysisResult` row the builtin engine stores per layer. -/
structure LayerAnalysisRecord where
  soil_depth : ℚ
  analysis_depth : ℚ
  sigma_v : ℚ
  sigma_v_prime : ℚ
  n60 : ℚ
  n1_60 : ℝ
  n1_60cs : ℝ
  vs : ℝ
  crr_7_5 : ℝ
  design : ScenResult
  mid : ScenResult
  maxeq : ScenResult

/-- Warning text appended when a liquefiable layer has no SPT-N value
(analysis_engine.py line 251; numeric rendering abstracted). -/
def missing_spt_warning (bhid : String) (top bottom : ℚ) : String :=
  "鑽孔 " ++ bhid ++ " 深度 " ++ toString top ++ "-" ++ toString bottom ++ "m: 缺少 SPT-N 值"

/-- analysis_engine.py lines 241-342 `_analyze_soil_layer`: screen the
layer (`None` result, no warning, when not liquefiable); warn and skip
when SPT-N is missing; otherwise run the full numeric pipeline and
return the stored record together with any warnings appended. -/
noncomputable def analyze_soil_layer (method : String) (em : ℚ) (unit : String)
    (bh : BoreholeRec) (layer : SoilRow) :
    Option LayerAnalysisRecord × List String :=
  if ¬ is_liquefiable_soil method layer then (none, [])
  else
    match layer.spt_n with
    | none => (none, [missing_spt_warning bh.borehole_id layer.top_depth layer.bottom_depth])
    | some n =>
      let analysis_depth : ℚ := (layer.top_depth + layer.bottom_depth) / 2
      let soil_depth : ℚ := layer.bottom_depth - layer.top_depth
      let sigma_v : ℚ := calculate_total_stress unit layer.unit_weight analysis_depth
      let sigma_v_prime : ℚ :=
        calculate_effective_stress unit layer.unit_weight bh.water_depth analysis_depth
      let n60 : ℚ := calculate_n60 em n
      let n1_60 : ℝ := calculate_n1_60 n60 sigma_v_prime
      let n1_60cs : ℝ := calculate_n1_60cs method layer.fines_content n1_60
      let vs : ℝ := estimate_vs n1_60
      let crr_7_5 : ℝ := calculate_crr_7_5 method n1_60cs
      let design := calculate_earthquake_scen bh.base_mw bh.sds bh.sms
        analysis_depth sigma_v_prime crr_7_5 "design"
      let mid := calculate_earthquake_scen bh.base_mw bh.sds bh.sms
        analysis_depth sigma_v_prime crr_7_5 "mid"
      let maxeq := calculate_earthquake_scen bh.base_mw bh.sds bh.sms
        analysis_depth sigma_v_prime crr_7_5 "max"
      (some { soil_depth := soil_depth, analysis_depth := analysis_depth,
              sigma_v := sigma_v, sigma_v_prime := sigma_v_prime, n60 := n60,
              n1_60 := n1_60, n1_60cs := n1_60cs, vs := vs, crr_7_5 := crr_7_5,
              design := design, mid := mid, maxeq := maxeq }, [])

/-- CLAIM C10: a soil layer whose USCS classification is missing/empty
is silently screened out by the builtin path: `_is_liquefiable_soil` is
false, `_analyze_soil_layer` produces no record, and no warning is
appended — unlike a liquefiable layer with a missing SPT-N value, which
is skipped with a warning. -/
theorem uscs_missing_silently_screened (method : String) (em : ℚ) (unit : String)
    (bh : BoreholeRec) (layer : SoilRow) (h : layer.uscs = "") :
    is_liquefiable_soil method layer = false ∧
    analyze_soil_layer method em unit bh layer = (none, []) ∧
    (∀ layer2 : SoilRow, layer2.uscs = "SM" → layer2.spt_n = none →
      layer2.fines_content = none → layer2.plastic_index = none →
      analyze_soil_layer method em unit bh layer2
        = (none, [missing_spt_warning bh.borehole_id layer2.top_depth layer2.bottom_depth])) := by
  have hfalse : is_liquefiable_soil method layer = false := by
    simp [is_liquefiable_soil, h]
  refine ⟨hfalse, ?_, ?_⟩
  · simp [analyze_soil_layer, hfalse]
  · intro layer2 huscs hspt hfc hpi
    obtain ⟨t, b, u, sn, fc, pidx, uw⟩ := layer2
    simp only at huscs hspt hfc hpi
    subst huscs hspt hfc hpi
    have hgen : ∀ m : String,
        is_liquefiable_soil m ⟨0, 0, "SM", none, none, none, none⟩ = true := by
      intro m
      by_cases h1 : m = "HBF"
      · subst h1
        decide
      · by_cases hA : m = "AIJ"
        · subst hA
          decide
        · by_cases hJ : m = "JRA"
          · subst hJ
            decide
          · simp only [is_liquefiable_soil, h1, hA, hJ]
            decide
    have hliq : is_liquefiable_soil method ⟨t, b, "SM", none, none, none, uw⟩ = true := by
      have heq : is_liquefiable_soil method ⟨t, b, "SM", none, none, none, uw⟩
          = is_liquefiable_soil method ⟨0, 0, "SM", none, none, none, none⟩ := by
        simp only [is_liquefiable_soil]
      rw [heq]
      exact hgen method
    simp [analyze_soil_layer, hliq]

/-- Witness for `uscs_missing_silently_screened` at a concrete borehole
with one USCS-less layer and one SM layer missing its SPT-N value. -/
theorem uscs_missing_silently_screened_witness :
    is_liquefiable_soil "NCEER" ⟨0, 2, "", some 10, none, none, some (9/5)⟩ = false ∧
    analyze_soil_layer "NCEER" 72 "t/m3" ⟨"BH-1", 1, some 7.3, some 0.7, some 0.9⟩
      ⟨0, 2, "", some 10, none, none, some (9/5)⟩ = (none, []) ∧
    analyze_soil_layer "NCEER" 72 "t/m3" ⟨"BH-1", 1, some 7.3, some 0.7, some 0.9⟩
      ⟨2, 4, "SM", none, none, none, some (9/5)⟩
      = (none, [missing_spt_warning "BH-1" 2 4]) := by
  have h := uscs_missing_silently_screened "NCEER" 72 "t/m3"
    ⟨"BH-1", 1, some 7.3, some 0.7, some 0.9⟩
    ⟨0, 2, "", some 10, none, none, some (9/5)⟩ rfl
  exact ⟨h.1, h.2.1, h.2.2 ⟨2, 4, "SM", none, none, none, some (9/5)⟩ rfl rfl rfl rfl⟩

/-!
## analysis_engine.py `LiquefactionAnalysisEngine` (class body, lines 83-899)
-/

/-- Module-level availability flags (analysis_engine.py lines 19-22):
the imports `from .HBF import HBF`, `from .NCEER import NCEER`, … fail
because no `HBF.py`/`NCEER.py`/`AIJ.py`/`JRA.py` module exists under
`liquefaction/services/`, so every flag stays `False` and every
dispatch falls through to `_run_builtin_analysis`. -/
def HBF_AVAILABLE : Bool := false

def NCEER_AVAILABLE : Bool := false

def AIJ_AVAILABLE : Bool := false

def JRA_AVAILABLE : Bool := false

/-- Engine-visible project/database state: the project status and error
message, the stored `AnalysisResult` rows, and the engine's
`_is_running` flag set in `__init__`. -/
structure EngineState where
  is_running : Bool
  status : String
  error_message : String
  boreholes : List (BoreholeRec × List SoilRow)
  stored_results : List LayerAnalysisRecord
  warnings : List String
  errors : List String

/-- The dictionary `run_analysis` returns. -/
structure RunDict where
  success : Bool
  error : Option String
  warnings : List String
  errors : List String

/-- Warning appended for a borehole without layers
(analysis_engine.py line 867). -/
def no_layer_warning (bhid : String) : String :=
  "鑽孔 " ++ bhid ++ " 沒有土層資料"

/-- analysis_engine.py lines 847-899 `_run_builtin_analysis`: raise
(`.error`) when the project has no boreholes; otherwise delete all
previously stored `AnalysisResult` rows, analyze every layer of every
borehole (collecting records and warnings), and set the project status
to completed (no per-layer exception can occur in the embedded
pipeline, so the error list stays empty and `success` is true). -/
noncomputable def run_builtin_analysis (method : String) (em : ℚ) (unit : String)
    (st : EngineState) : Except String (RunDict × EngineState) :=
  if st.boreholes.isEmpty then
    .error "專案中沒有鑽孔資料"
  else
    let step := st.boreholes.foldl
      (fun (acc : List LayerAnalysisRecord × List String) bhl =>
        let (bh, layers) := bhl
        if layers.isEmpty then (acc.1, acc.2 ++ [no_layer_warning bh.borehole_id])
        else layers.foldl
          (fun (acc2 : List LayerAnalysisRecord × List String) layer =>
            let (r, ws) := analyze_soil_layer method em unit bh layer
            (acc2.1 ++ r.toList, acc2.2 ++ ws)) acc)
      ([], [])
    let st2 : EngineState :=
      { st with stored_results := step.1, warnings := st.warnings ++ step.2,
                status := "completed", error_message := "" }
    .ok ({ success := true, error := none, warnings := st2.warnings, errors := st2.errors },
         st2)

/-- analysis_engine.py lines 96-146: the FIRST `run_analysis` definition,
with the `_is_running` concurrency guard. -/
noncomputable def run_analysis_v1 (method : String) (em : ℚ) (unit : String)
    (st : EngineState) : RunDict × EngineState :=
  if st.is_running then
    ({ success := false, error := some "分析已在執行中", warnings := [], errors := [] }, st)
  else
    let st1 := { st with is_running := true, status := "processing" }
    match run_builtin_analysis method em unit st1 with
    | .ok (d, st2) => (d, { st2 with is_running := false })
    | .error e =>
        ({ success := false, error := some e, warnings := st1.warnings, errors := st1.errors },
         { st1 with is_running := false, status := "error", error_message := e })

/-- analysis_engine.py lines 637-662: the SECOND `run_analysis`
definition — no `_is_running` check at all. -/
noncomputable def run_analysis_v2 (method : String) (em : ℚ) (unit : String)
    (st : EngineState) : RunDict × EngineState :=
  let st1 := { st with status := "processing" }
  match run_builtin_analysis method em unit st1 with
  | .ok (d, st2) => (d, st2)
  | .error e =>
      ({ success := false, error := some e, warnings := st1.warnings, errors := st1.errors },
       { st1 with status := "error", error_message := e })

/-- The class body of `LiquefactionAnalysisEngine` defines
`run_analysis` twice (lines 96 and 637); only those two entries matter
for name resolution. -/
noncomputable def engine_class_body (method : String) (em : ℚ) (unit : String) :
    List (String × (EngineState → RunDict × EngineState)) :=
  [("run_analysis", run_analysis_v1 method em unit),
   ("run_analysis", run_analysis_v2 method em unit)]

/-- Python class-body semantics: a later `def` of the same name shadows
an earlier one, so attribute lookup returns the LAST definition. -/
noncomputable def pythonClassResolve {α : Type}
    (body : List (String × α)) (name : String) : Option α :=
  ((body.filter (fun p => p.1 = name)).getLast?).map Prod.snd

/-- The in-flight engine state used to exhibit the bug: a prior run is
marked running, with one stored result and one borehole whose single
layer has no USCS code. -/
noncomputable def dummyScen : ScenResult :=
  ⟨0, 0, 0, 0, 0, 0, 0, 0, 0, 0⟩

noncomputable def dummyRecord : LayerAnalysisRecord :=
  ⟨0, 0, 0, 0, 0, 0, 0, 0, 0, dummyScen, dummyScen, dummyScen⟩

noncomputable def inflight_state : EngineState :=
  { is_running := true, status := "processing", error_message := ""
    boreholes := [(⟨"BH-1", 1, some 7.3, some 0.7, some 0.9⟩,
                   [⟨0, 2, "", some 10, none, none, some (9/5)⟩])]
    stored_results := [dummyRecord], warnings := [], errors := [] }

/-- CLAIM C2 (code bug): the bound `run_analysis` is the second, guard
less definition, so calling it on a project whose prior run has not
completed does NOT return the "already running" status: it proceeds,
deletes the previously stored results and reports success. -/
theorem run_analysis_guard_shadowed :
    pythonClassResolve (engine_class_body "NCEER" 72 "t/m3") "run_analysis"
      = some (run_analysis_v2 "NCEER" 72 "t/m3") ∧
    inflight_state.is_running = true ∧
    (run_analysis_v2 "NCEER" 72 "t/m3" inflight_state).1.error ≠ some "分析已在執行中" ∧
    (run_analysis_v2 "NCEER" 72 "t/m3" inflight_state).1.success = true ∧
    (run_analysis_v2 "NCEER" 72 "t/m3" inflight_state).2.stored_results = [] ∧
    inflight_state.stored_results ≠ [] ∧
    (run_analysis_v1 "NCEER" 72 "t/m3" inflight_state).1.error = some "分析已在執行中" ∧
    (run_analysis_v1 "NCEER" 72 "t/m3" inflight_state).2.stored_results
      = inflight_state.stored_results := by
  have hana : analyze_soil_layer "NCEER" 72 "t/m3" ⟨"BH-1", 1, some 7.3, some 0.7, some 0.9⟩
      ⟨0, 2, "", some 10, none, none, some (9/5)⟩ = (none, []) := by
    simp [analyze_soil_layer, is_liquefiable_soil]
  refine ⟨rfl, rfl, ?_, ?_, ?_, ?_, ?_, ?_⟩ <;>
    simp [run_analysis_v2, run_analysis_v1, run_builtin_analysis, inflight_state,
      hana, List.foldl, Option.toList, dummyRecord]

/-!
## Seismic parameter resolution
(NCEER.py `coordinate_search_from_file` lines 787-939 and
`get_earthquake_parameters_from_wells` lines 940-1006;
seismic_service.py `query_seismic_parameters` lines 448-670)

The geocoder, fault-distance table, basin table and general-zone table
are external lookups; their outcomes enter the decision core as
parameters (`none` = no match), and the priority cascade itself is
embedded from the source.
-/

/-- Reverse-geocode outcome for a coordinate. -/
structure GeoInfo where
  city : String
  district : Option String
  village : Option String

/-- One matched fault-distance parameter record. -/
structure FaultRec where
  SDS : ℚ
  SMS : ℚ
  SD1 : Option ℚ
  SM1 : Option ℚ

/-- One general-zone (city→district→village) coefficient record. -/
structure ZoneRec where
  SDS : Option ℚ
  SMS : Option ℚ
  SD1 : Option ℚ
  SM1 : Option ℚ

/-- The seismic-parameter part of a resolver result. -/
structure SearchResult where
  SDS : Option ℚ
  SMS : Option ℚ
  SD1 : Option ℚ
  SM1 : Option ℚ
  source : String

/-- `taipei_basin_seismic_coefficients` (NCEER.py lines 155-174 and
seismic_service.py lines 29-48): every listed micro-zone carries
`SD_S = 0.6`, `SM_S = 0.8`. -/
def taipei_basin_coefficients (zone : String) : Option (ℚ × ℚ) :=
  if zone = "臺北一區" ∨ zone = "臺北二區" ∨ zone = "臺北三區" then some (0.6, 0.8)
  else none

/-- `city_mw_mapping` / `base_mw_map` (NCEER.py lines 177-183 and
965-972): fixed city→Mw table, default 7.0 for unmapped cities. -/
def base_mw_map (city : String) : ℚ :=
  if city = "基隆市" ∨ city = "新北市" ∨ city = "臺北市" ∨ city = "宜蘭縣"
      ∨ city = "花蓮縣" ∨ city = "台東縣" then 7.3
  else if city = "桃園市" ∨ city = "台中市" ∨ city = "彰化縣" ∨ city = "南投縣"
      ∨ city = "雲林縣" ∨ city = "嘉義縣" ∨ city = "台南市" ∨ city = "高雄市" then 7.1
  else if city = "新竹縣" ∨ city = "苗栗縣" ∨ city = "屏東縣" then 6.9
  else if city = "澎湖縣" ∨ city = "金門縣" ∨ city = "馬祖縣" then 6.7
  else 7.0

/-- NCEER.py `coordinate_search_from_file` decision core: geocode
failure propagates as `none`; otherwise fault-distance parameters (when
enabled, within 14 km and tabulated), then the Taipei basin micro-zone,
then the general-zone record, then the DEFAULT `SDS = 0.8`,
`SMS = 1.0` tagged `預設值` (lines 897-911). -/
def coordinate_search_core (geo : Option GeoInfo) (use_fault_data has_fault_gdf : Bool)
    (nearest : Option (String × ℚ)) (fault_params : Option FaultRec)
    (basin_zone : Option String) (village_data : Option ZoneRec) : Option SearchResult :=
  match geo with
  | none => none
  | some g =>
    let fault_hit : Option SearchResult :=
      if use_fault_data && has_fault_gdf then
        match nearest with
        | some (_, d) =>
          if d ≤ 14 then
            match fault_params with
            | some p => some ⟨some p.SDS, some p.SMS, p.SD1, p.SM1, "斷層距離參數"⟩
            | none => none
          else none
        | none => none
      else none
    match fault_hit with
    | some r => some r
    | none =>
      let basin_hit : Option SearchResult :=
        if (g.city = "臺北市" ∨ g.city = "新北市") ∧ g.district ≠ none then
          match basin_zone with
          | some z =>
            match taipei_basin_coefficients z with
            | some (sds, sms) => some ⟨some sds, some sms, none, none, "台北盆地微分區"⟩
            | none => some ⟨none, none, none, none, "台北盆地微分區"⟩
          | none => none
        else none
      match basin_hit with
      | some r => some r
      | none =>
        match village_data with
        | some v => some ⟨v.SDS, v.SMS, v.SD1, v.SM1, "一般震區資料"⟩
        | none => some ⟨some 0.8, some 1.0, none, none, "預設值"⟩

/-- The per-well parameters stored by
`get_earthquake_parameters_from_wells`. -/
structure WellParams where
  base_mw : ℚ
  SDS : Option ℚ
  SMS : Option ℚ

/-- NCEER.py lines 961-1000: when the coordinate search succeeds, keep
its SDS/SMS and map the city to a base Mw; when it fails entirely, fall
back to `base_mw = 7.0`, `SDS = 0.8`, `SMS = 1.0` (with a printed
warning) and continue analysing the borehole. -/
def get_earthquake_parameters_for_well (search : Option SearchResult)
    (city : String) : WellParams :=
  match search with
  | some r => ⟨base_mw_map city, r.SDS, r.SMS⟩
  | none => ⟨7.0, some 0.8, some 1.0⟩

/-- Outcome of `SeismicParameterService.query_seismic_parameters`. -/
inductive QueryResult
  | failure (error : String)
  | success (params : SearchResult) (base_mw : ℚ)

/-- seismic_service.py lines 448-670 `query_seismic_parameters`: an
out-of-bounds coordinate FAILS (`success: False`, no default
parameters); in-bounds coordinates run the fault → basin → general-zone
→ default cascade, whose default is `SDS = 0.6`, `SMS = 0.8`, tagged
`預設值` (lines 627-653); Taipei cities skip the fault step. -/
def query_seismic_parameters_core (x y : ℚ) (geo : Option GeoInfo)
    (use_fault_data has_fault_gdf : Bool) (nearest : Option (String × ℚ))
    (fault_params : Option FaultRec) (basin_zone : Option String)
    (village_data : Option ZoneRec) : QueryResult :=
  if ¬ (160000 ≤ x ∧ x ≤ 380000) ∨ ¬ (2420000 ≤ y ∧ y ≤ 2800000) then
    .failure "座標超出台灣地區範圍"
  else
    match geo with
    | none => .failure "無法獲取地理位置資訊"
    | some g =>
      let skip_fault := g.city = "臺北市" ∨ g.city = "新北市"
      let fault_hit : Option QueryResult :=
        if ¬ skip_fault ∧ (use_fault_data && has_fault_gdf) = true then
          match nearest with
          | some (_, d) =>
            if d ≤ 14 then
              match fault_params with
              | some p => some (.success ⟨some p.SDS, some p.SMS, p.SD1, p.SM1,
                  "斷層距離參數"⟩ (base_mw_map g.city))
              | none => none
            else none
          | none => none
        else none
      match fault_hit with
      | some r => r
      | none =>
        let basin_hit : Option QueryResult :=
          if (g.city = "臺北市" ∨ g.city = "新北市") ∧ g.district ≠ none then
            match basin_zone with
            | some z =>
              match taipei_basin_coefficients z with
              | some (sds, sms) => some (.success ⟨some sds, some sms, none, none,
                  "台北盆地微分區"⟩ (base_mw_map g.city))
              | none => some (.success ⟨none, none, none, none,
                  "台北盆地微分區"⟩ (base_mw_map g.city))
            | none => none
          else none
        match basin_hit with
        | some r => r
        | none =>
          match village_data with
          | some v => .success ⟨v.SDS, v.SMS, v.SD1, v.SM1, "一般震區資料"⟩
              (base_mw_map g.city)
          | none => .success ⟨some 0.6, some 0.8, none, none, "預設值"⟩
              (base_mw_map g.city)

/-- CLAIM C9 counterexample: with a city found but no fault, basin or
general-zone match, the NCEER-path resolver falls back to `SDS = 0.8`,
`SMS = 1.0` (not the claimed 0.6/0.8), and an out-of-bounds coordinate
(1000, 1000) makes `query_seismic_parameters` FAIL rather than fall
back to any defaults. -/
theorem seismic_default_claim_counterexample :
    coordinate_search_core (some ⟨"屏東縣", some "內埔鄉", none⟩) false false none none none none
      = some ⟨some 0.8, some 1.0, none, none, "預設值"⟩ ∧
    (some (0.8 : ℚ) ≠ some (0.6 : ℚ)) ∧
    query_seismic_parameters_core 1000 1000 (some ⟨"屏東縣", some "內埔鄉", none⟩)
      false false none none none none = .failure "座標超出台灣地區範圍" := by
  refine ⟨?_, by norm_num, ?_⟩
  · simp [coordinate_search_core]
  · unfold query_seismic_parameters_core
    rw [if_pos]
    left
    intro hcon
    have := hcon.1
    norm_num at this

/-- CLAIM C9 (amended): with an in-bounds coordinate, a resolved city
and no fault-distance, basin micro-zone or general-zone match, the
newer resolver (`seismic_service`) falls back to `SDS = 0.6`,
`SMS = 0.8` (SD1/SM1 undefined) tagged `預設值`, while the NCEER-path
resolver falls back to `SDS = 0.8`, `SMS = 1.0` tagged `預設值` and a
completely failed search still yields analysable defaults
`Mw = 7.0`, `SDS = 0.8`, `SMS = 1.0`; an out-of-bounds coordinate makes
`query_seismic_parameters` fail explicitly instead of returning
defaults. -/
theorem seismic_default_fallback_spec (x y : ℚ) (g : GeoInfo) (uf hf : Bool)
    (near : Option (String × ℚ)) (bz : Option String) (vd : Option ZoneRec)
    (hbz : bz = none) (hvd : vd = none)
    (hx1 : 160000 ≤ x) (hx2 : x ≤ 380000) (hy1 : 2420000 ≤ y) (hy2 : y ≤ 2800000) :
    coordinate_search_core (some g) uf hf near none bz vd
      = some ⟨some 0.8, some 1.0, none, none, "預設值"⟩ ∧
    query_seismic_parameters_core x y (some g) uf hf near none bz vd
      = .success ⟨some 0.6, some 0.8, none, none, "預設值"⟩ (base_mw_map g.city) ∧
    get_earthquake_parameters_for_well none g.city = ⟨7.0, some 0.8, some 1.0⟩ ∧
    (∀ x' y' : ℚ, x' < 160000 →
      query_seismic_parameters_core x' y' (some g) uf hf near none bz vd
        = .failure "座標超出台灣地區範圍") := by
  subst hbz hvd
  refine ⟨?_, ?_, rfl, ?_⟩
  · rcases near with _ | ⟨n, d⟩ <;> simp [coordinate_search_core]
  · rcases near with _ | ⟨n, d⟩ <;>
      simp [query_seismic_parameters_core, hx1, hx2, hy1, hy2]
  · intro x' y' hx'
    unfold query_seismic_parameters_core
    rw [if_pos]
    left
    intro hcon
    exact absurd hcon.1 (not_le.2 hx')

/-- Witness for `seismic_default_fallback_spec` at the spec §8 seed
coordinate (300000, 2770000). -/
theorem seismic_default_fallback_spec_witness :
    coordinate_search_core (some ⟨"屏東縣", some "內埔鄉", none⟩) true true
      (some ("旗山斷層", 20)) none none none
      = some ⟨some 0.8, some 1.0, none, none, "預設值"⟩ ∧
    query_seismic_parameters_core 300000 2770000 (some ⟨"屏東縣", some "內埔鄉", none⟩)
      true true (some ("旗山斷層", 20)) none none none
      = .success ⟨some 0.6, some 0.8, none, none, "預設值"⟩
          (base_mw_map "屏東縣") := by
  have h := seismic_default_fallback_spec 300000 2770000 ⟨"屏東縣", some "內埔鄉", none⟩
    true true (some ("旗山斷層", 20)) none none rfl rfl
    (by norm_num) (by norm_num) (by norm_num) (by norm_num)
  exact ⟨h.1, h.2.1⟩
